import Mathlib

/-!
# Verification of the sushify mitmproxy interceptor

Shallow embedding of `src/lib/proxy/interceptor.py`, the traffic-classification
and forwarding layer of the sushify repository, together with theorems settling
the specification claims about it.

Modelling conventions:
* Python `str` is Lean `String`; a `bytes` body is modelled as a `String` too
  (only its presence/emptiness and length matter to the code).
* Values that may be `None` are `Option`.
* `time.time()` is a rational number of seconds supplied by the environment;
  the several calls inside one hook invocation are modelled as the same
  instant `now` (the code treats them as interchangeable up to clock
  resolution).
* Python exceptions are modelled with an error monad shape
  `St → Except PyExn α × St`: the interceptor's observable state `St`
  (log lines written so far, HTTP POST deliveries attempted so far) is
  threaded through and survives a raise, exactly as Python side effects do.
* The behaviour of the external collaborators — the logging sink (file
  append), the status endpoint `GET /api/proxy/status` and the ingestion
  endpoint `POST /api/proxy/exchanges` — is an oracle packaged in `World`
  together with the environment-derived configuration.
-/

namespace Sushify

/-- Python exceptions that can arise in the interceptor. -/
inductive PyExn where
  /-- an OSError-style failure raised by the logging sink (file append) -/
  | ioError : PyExn
  /-- `requests.RequestException` (timeout, connection failure, ...) -/
  | requestExn : PyExn
  /-- any other exception (e.g. `ValueError` from `.json()` parsing) -/
  | otherExn : PyExn
deriving DecidableEq, Repr

/-- Python's `str.startswith`: case-sensitive string prefix test. -/
def pyStartsWith (s p : String) : Bool :=
  p.toList.isPrefixOf s.toList

/-- Python truthiness of an `Optional[bytes]`/`Optional[str]` value:
`None` and the empty value are falsy. -/
def pyTruthy (b : Option String) : Bool :=
  match b with
  | none => false
  | some s => !s.isEmpty

/-- Occurrence scan for `pyContains`: the pattern occurs in the scanned
character list iff it is a prefix of some suffix of it. -/
def containsAux (pat : List Char) : List Char → Bool
  | [] => pat.isEmpty
  | c :: rest => pat.isPrefixOf (c :: rest) || containsAux pat rest

/-- Case-sensitive substring test (Python's `in` on strings). -/
def pyContains (s pat : String) : Bool :=
  containsAux pat.toList s.toList

/-- Python's `str.lower`, character-wise. -/
def pyToLower (s : String) : String :=
  String.mk (s.toList.map Char.toLower)

/-- `request.pretty_url`, `request.method`, ... — the read-only view of the
flow's request that the interceptor consumes (duck-typed mitmproxy object in
the source). `content` is the raw body (`None` when absent), `text` the
decoded body (`None` when absent or not decodable). -/
structure Request where
  pretty_url : String
  method : String
  host : String
  path : String
  scheme : String
  headers : List (String × String)
  content : Option String
  text : Option String
deriving DecidableEq, Repr

/-- The read-only view of `flow.response` (present only on the success path). -/
structure Response where
  status_code : Nat
  headers : List (String × String)
  text : Option String
deriving DecidableEq, Repr

/-- The flow object handed to the hooks, as far as the interceptor touches
it: the request view plus the one metadata entry this system owns
(`flow.metadata["sushify_start_time"]`, absent until the request hook ran).
`flow.response` / `flow.error` are passed to the respective hooks
separately, since the engine guarantees exactly one of them is present. -/
structure Flow where
  request : Request
  sushify_start_time : Option ℚ
deriving DecidableEq, Repr

/-- Default AI provider base URLs (`DEFAULT_AI_BASE_URLS` in the source). -/
def DEFAULT_AI_BASE_URLS : List String :=
  ["https://api.openai.com",
   "https://api.anthropic.com",
   "https://generativelanguage.googleapis.com"]

/-- The module-level computation of `AI_BASE_URLS` from the
`LLM_PROVIDER_BASE_URL` environment variable (`none` = unset; Python's
`if CUSTOM_LLM_PROVIDER:` also treats the empty string as unset). -/
def computeAiBaseUrls (custom : Option String) : List String :=
  match custom with
  | none => DEFAULT_AI_BASE_URLS
  | some c =>
    if c.isEmpty then DEFAULT_AI_BASE_URLS
    else if pyStartsWith c "http" then [c]
    else ["https://" ++ c]

/-- `matches_ai_base_url`: the request URL starts with one of the configured
base URLs (simple case-sensitive string-prefix matching, as in the source
loop). -/
def matches_ai_base_url (aiBaseUrls : List String) (r : Request) : Bool :=
  aiBaseUrls.any (fun base_url => pyStartsWith r.pretty_url base_url)

/-- `should_capture_request`: AI-domain-matched AND method `POST` AND truthy
(present, non-empty) body. -/
def should_capture_request (aiBaseUrls : List String) (r : Request) : Bool :=
  matches_ai_base_url aiBaseUrls r && (r.method == "POST") && pyTruthy r.content

/-- Python's `int()` on a rational: truncation toward zero. -/
def pyInt (q : ℚ) : ℤ :=
  if 0 ≤ q then ⌊q⌋ else ⌈q⌉

/-- Models Python's builtin `hash` on strings (seed-randomized in CPython;
any fixed function is a faithful model, the code only uses it modulo 10000
inside the record id, where collisions are explicitly acceptable). -/
def strHash (s : String) : ℕ :=
  s.foldl (fun a c => (a * 31 + c.toNat) % 1000000007) 7

/-- Models `time.strftime` applied at time `t`: some human-readable rendering
of the instant. -/
def fmtTime (t : ℚ) : String :=
  "time " ++ toString t

/-- `get_safe_body`: absent body yields the empty string, a present body is
passed through unmodified (full-fidelity policy, no truncation). -/
def get_safe_body (text : Option String) : String :=
  match text with
  | none => ""
  | some t => if t.isEmpty then "" else t

/-- The dict built by `create_exchange_base`: the fields shared by the
success-path and error-path exchange records. -/
structure ExchangeBase where
  id : String
  timestamp : ℚ
  url : String
  method : String
  host : String
  path : String
  scheme : String
  request_headers : List (String × String)
  request_body : String
  latency_ms : ℤ
  captured_at : String
deriving DecidableEq, Repr

/-- `create_exchange_base flow` at wall-clock instant `now`, with
`meta = flow.metadata.get("sushify_start_time")`: the `.get` default is
`time.time()`, so a missing start time makes the latency span empty. -/
def create_exchange_base (now : ℚ) (r : Request) (meta : Option ℚ) :
    ExchangeBase :=
  let start_time : ℚ := meta.getD now
  let latency_ms : ℤ := pyInt ((now - start_time) * 1000)
  { id := "exchange_" ++ toString (pyInt (now * 1000)) ++ "_"
        ++ toString (strHash r.pretty_url % 10000),
    timestamp := now,
    url := r.pretty_url,
    method := r.method,
    host := r.host,
    path := r.path,
    scheme := r.scheme,
    request_headers := r.headers,
    request_body := get_safe_body r.text,
    latency_ms := latency_ms,
    captured_at := fmtTime now }

/-- A full exchange record: the base dict plus the fields added by
`exchange.update({...})` in the `response`/`error` hooks. `error_details`
is `none` when the key is absent (success path). -/
structure Exchange where
  base : ExchangeBase
  response_status : Option Nat
  response_headers : List (String × String)
  response_body : String
  error_details : Option String
deriving DecidableEq, Repr

/-- The exchange record assembled in the `response` hook (success path). -/
def response_exchange (now : ℚ) (r : Request) (resp : Response)
    (meta : Option ℚ) : Exchange :=
  { base := create_exchange_base now r meta,
    response_status := some resp.status_code,
    response_headers := resp.headers,
    response_body := get_safe_body resp.text,
    error_details := none }

/-- `get_error_description`: human-readable classification of a raw
transport-error text by case-insensitive substring search, first match
winning in the source's listed order. -/
def get_error_description (error : String) : String :=
  let error_str := pyToLower error
  if pyContains error_str "timeout" then "Request timed out"
  else if pyContains error_str "connection refused" then "Connection refused"
  else if pyContains error_str "ssl" || pyContains error_str "certificate" then
    "SSL/Certificate error"
  else if pyContains error_str "dns" || pyContains error_str "name resolution" then
    "DNS resolution failed"
  else if pyContains error_str "connection reset" then "Connection reset"
  else "Network error: " ++ error

/-- The exchange record assembled in the `error` hook (failure path):
no status, empty response headers, classified error text as the body, raw
error text kept separately for diagnostics. -/
def error_exchange (now : ℚ) (r : Request) (err : String)
    (meta : Option ℚ) : Exchange :=
  { base := create_exchange_base now r meta,
    response_status := none,
    response_headers := [],
    response_body := get_error_description err,
    error_details := some err }

/-- `SUSHIFY_DASHBOARD_URL` default (the collection service address). -/
def SUSHIFY_SERVER_URL : String := "http://localhost:7331"

/-- `EXCHANGES_ENDPOINT`: the ingestion endpoint records are POSTed to. -/
def EXCHANGES_ENDPOINT : String := SUSHIFY_SERVER_URL ++ "/api/proxy/exchanges"

/-- Body of a status reply from the collection service. -/
inductive StatusBody where
  /-- `.json()` raises (malformed body) -/
  | malformed : StatusBody
  /-- a JSON object whose `capturing` field is absent or the given boolean -/
  | payload : Option Bool → StatusBody
deriving DecidableEq, Repr

/-- Outcome of the `GET /api/proxy/status` call, as behaviour of the remote
collection service. -/
inductive StatusOutcome where
  /-- the call raises `requests.RequestException` (timeout, transport failure) -/
  | raiseReq : StatusOutcome
  /-- the call raises some other exception -/
  | raiseOther : StatusOutcome
  /-- an HTTP reply with this status code and body -/
  | ok : Nat → StatusBody → StatusOutcome
deriving DecidableEq, Repr

/-- Outcome of the `POST /api/proxy/exchanges` delivery call. -/
inductive DeliverOutcome where
  /-- the call raises `requests.RequestException` -/
  | raiseReq : DeliverOutcome
  /-- the call raises some other exception -/
  | raiseOther : DeliverOutcome
  /-- an HTTP reply with this status code -/
  | ok : Nat → DeliverOutcome
deriving DecidableEq, Repr

/-- The environment the interceptor runs in: the startup configuration
(`AI_BASE_URLS`), the wall clock, and the behaviour of the logging sink and
of the two remote endpoints during one hook invocation. -/
structure World where
  /-- the configured provider base URLs (`AI_BASE_URLS`) -/
  aiBaseUrls : List String
  /-- current wall-clock time in seconds (`time.time()`) -/
  now : ℚ
  /-- the logging sink (file append in `log_message`) raises -/
  logRaises : Bool
  /-- behaviour of the status endpoint -/
  status : StatusOutcome
  /-- behaviour of the ingestion endpoint -/
  deliver : DeliverOutcome
deriving DecidableEq, Repr

/-- Observable side-effect state of the interceptor: structured log lines
written so far (level, message) and the exchange-record POSTs attempted so
far, in order. -/
structure St where
  log : List (String × String)
  sent : List Exchange
deriving DecidableEq, Repr

/-- `log_message`: appends one structured line to `interceptor.log`; raises
when the sink fails (the write is not guarded in the source). -/
def log_message (w : World) (level message : String) (st : St) :
    Except PyExn Unit × St :=
  if w.logRaises then (Except.error PyExn.ioError, st)
  else (Except.ok (), { st with log := st.log ++ [(level, message)] })

/-- `is_capture_enabled`: queries the status endpoint; any
`RequestException` is swallowed silently, any other exception is logged at
WARN; a 200 reply yields `data.get("capturing", False)`, anything else
falls through to `False`. -/
def is_capture_enabled (w : World) (st : St) : Except PyExn Bool × St :=
  match w.status with
  | StatusOutcome.raiseReq => (Except.ok false, st)
  | StatusOutcome.raiseOther =>
    match log_message w "WARN" "Error checking capture status" st with
    | (Except.error e, st') => (Except.error e, st')
    | (Except.ok _, st') => (Except.ok false, st')
  | StatusOutcome.ok code body =>
    if code = 200 then
      match body with
      | StatusBody.malformed =>
        match log_message w "WARN" "Error checking capture status" st with
        | (Except.error e, st') => (Except.error e, st')
        | (Except.ok _, st') => (Except.ok false, st')
      | StatusBody.payload capturing =>
        (Except.ok (capturing.getD false), st)
    else (Except.ok false, st)

/-- `should_capture_flow`: capture-enabled AND classifier-eligible, with
Python's short-circuit `and` (the classifier is not consulted when the
gate already said no). -/
def should_capture_flow (w : World) (r : Request) (st : St) :
    Except PyExn Bool × St :=
  match is_capture_enabled w st with
  | (Except.error e, st') => (Except.error e, st')
  | (Except.ok false, st') => (Except.ok false, st')
  | (Except.ok true, st') => (Except.ok (should_capture_request w.aiBaseUrls r), st')

/-- `send_exchange_to_server`: one POST of the record to the ingestion
endpoint; non-200 logs a WARN naming the record id and the endpoint;
a raised `RequestException` or any other exception logs an ERROR; nothing
is retried or re-raised (except by the unguarded log write itself). -/
def send_exchange_to_server (w : World) (exchange : Exchange) (st : St) :
    Except PyExn Unit × St :=
  let st1 : St := { st with sent := st.sent ++ [exchange] }
  match w.deliver with
  | DeliverOutcome.raiseReq =>
    log_message w "ERROR" "Failed to send exchange to server" st1
  | DeliverOutcome.raiseOther =>
    log_message w "ERROR" "Unexpected error sending exchange" st1
  | DeliverOutcome.ok code =>
    if code = 200 then (Except.ok (), st1)
    else
      log_message w "WARN"
        ("Server returned " ++ toString code ++ " for exchange "
          ++ exchange.base.id ++ " to " ++ EXCHANGES_ENDPOINT) st1

/-- The `request` hook: logs the intercepted request, logs a body preview
line when the body is truthy (the `UnicodeDecodeError` fallback logs a
binary variant), then stamps `flow.metadata["sushify_start_time"]`.
Returns the hook's outcome, the flow as left behind, and the state. -/
def request (w : World) (f : Flow) (st : St) :
    Except PyExn Unit × Flow × St :=
  match log_message w "DEBUG"
      ("Request intercepted: " ++ f.request.method ++ " "
        ++ f.request.pretty_url) st with
  | (Except.error e, st1) => (Except.error e, f, st1)
  | (Except.ok _, st1) =>
    let afterBody : Except PyExn Unit × St :=
      match f.request.content with
      | none => (Except.ok (), st1)
      | some c =>
        if c.isEmpty then (Except.ok (), st1)
        else
          match f.request.text with
          | some body_text =>
            log_message w "DEBUG"
              ("Request body: " ++ toString body_text.length ++ " chars") st1
          | none =>
            log_message w "DEBUG"
              ("Request body: " ++ toString c.length ++ " bytes (binary)") st1
    match afterBody with
    | (Except.error e, st2) => (Except.error e, f, st2)
    | (Except.ok _, st2) =>
      (Except.ok (), { f with sushify_start_time := some w.now }, st2)

/-- Body of the `try:` block of the `response` hook. -/
def responseTryBody (w : World) (f : Flow) (resp : Response) (st : St) :
    Except PyExn Unit × St :=
  match should_capture_flow w f.request st with
  | (Except.error e, st1) => (Except.error e, st1)
  | (Except.ok false, st1) =>
    log_message w "DEBUG"
      ("Skipping response: " ++ f.request.method ++ " "
        ++ f.request.pretty_url
        ++ " (capture disabled or not AI domain)") st1
  | (Except.ok true, st1) =>
    let exchange := response_exchange w.now f.request resp f.sushify_start_time
    match send_exchange_to_server w exchange st1 with
    | (Except.error e, st2) => (Except.error e, st2)
    | (Except.ok _, st2) =>
      log_message w "INFO"
        ("Exchange captured: " ++ f.request.method ++ " "
          ++ f.request.pretty_url ++ " ("
          ++ toString resp.status_code ++ ", "
          ++ toString exchange.base.latency_ms ++ "ms)") st2

/-- The shared shape of the `response` and `error` hooks: one log line
before the `try:` block, then the `try:` body, then the `except Exception`
handler that writes an ERROR line and a DEBUG traceback line and swallows
the exception. The flow is returned as the hook leaves it (these hooks
never write to it). -/
def hookGuard (w : World) (preLevel preMsg : String)
    (tryBody : St → Except PyExn Unit × St) (handlerMsg : String)
    (f : Flow) (st : St) : Except PyExn Unit × Flow × St :=
  match log_message w preLevel preMsg st with
  | (Except.error e, st1) => (Except.error e, f, st1)
  | (Except.ok _, st1) =>
    match tryBody st1 with
    | (Except.ok _, st2) => (Except.ok (), f, st2)
    | (Except.error _, st2) =>
      match log_message w "ERROR" handlerMsg st2 with
      | (Except.error e2, st3) => (Except.error e2, f, st3)
      | (Except.ok _, st3) =>
        match log_message w "DEBUG" "Full traceback" st3 with
        | (Except.error e3, st4) => (Except.error e3, f, st4)
        | (Except.ok _, st4) => (Except.ok (), f, st4)

/-- The `response` hook: an initial DEBUG log line sits before the `try:`
block; the `except Exception` handler logs and swallows. `resp` is
`flow.response`, which the engine guarantees present. -/
def response (w : World) (f : Flow) (resp : Response) (st : St) :
    Except PyExn Unit × Flow × St :=
  hookGuard w "DEBUG"
    ("Response received: " ++ f.request.method ++ " "
      ++ f.request.pretty_url ++ " ("
      ++ toString resp.status_code ++ ", "
      ++ toString (pyInt ((w.now - (f.sushify_start_time.getD w.now)) * 1000))
      ++ "ms)")
    (fun s => responseTryBody w f resp s) "Error in interceptor" f st

/-- Body of the `try:` block of the `error` hook. -/
def errorTryBody (w : World) (f : Flow) (err : String) (st : St) :
    Except PyExn Unit × St :=
  match should_capture_flow w f.request st with
  | (Except.error e, st1) => (Except.error e, st1)
  | (Except.ok false, st1) => (Except.ok (), st1)
  | (Except.ok true, st1) =>
    let exchange := error_exchange w.now f.request err f.sushify_start_time
    match send_exchange_to_server w exchange st1 with
    | (Except.error e, st2) => (Except.error e, st2)
    | (Except.ok _, st2) =>
      log_message w "INFO"
        ("Error exchange captured: " ++ f.request.method ++ " "
          ++ f.request.pretty_url ++ " - " ++ get_error_description err
          ++ " (" ++ toString exchange.base.latency_ms ++ "ms)") st2

/-- The `error` hook: classifies the error, writes a WARN line before the
`try:` block, then assembles and delivers the failure-path record; the
`except Exception` handler logs and swallows. `err` is `str(flow.error)`. -/
def error (w : World) (f : Flow) (err : String) (st : St) :
    Except PyExn Unit × Flow × St :=
  hookGuard w "WARN"
    ("Request error: " ++ f.request.method ++ " "
      ++ f.request.pretty_url ++ " - " ++ get_error_description err)
    (fun s => errorTryBody w f err s) "Error in error handler" f st

/-! ## Shared helper lemmas -/

/-- `pyStartsWith` agrees with the mathematical prefix relation. -/
theorem pyStartsWith_iff (s p : String) :
    pyStartsWith s p = true ↔ ∃ t, s = p ++ t := by
  unfold pyStartsWith
  rw [List.isPrefixOf_iff_prefix]
  constructor
  · rintro ⟨t, ht⟩
    refine ⟨String.mk t, String.ext ?_⟩
    simpa using ht.symm
  · rintro ⟨t, rfl⟩
    exact ⟨t.toList, by simp [String.toList]⟩

/-- The boolean value the capture gate evaluates to, as a pure function of
the status endpoint's behaviour. -/
def captureEnabledB (w : World) : Bool :=
  match w.status with
  | StatusOutcome.ok 200 (StatusBody.payload capturing) => capturing.getD false
  | _ => false

/-- With a working logging sink, the capture gate returns normally with the
value `captureEnabledB w` and no new delivery attempts. -/
theorem is_capture_enabled_eq (w : World) (st : St) (h : w.logRaises = false) :
    ∃ lg, is_capture_enabled w st = (Except.ok (captureEnabledB w), St.mk lg st.sent) := by
  cases hs : w.status with
  | raiseReq =>
    exact ⟨st.log, by simp [is_capture_enabled, captureEnabledB, hs]⟩
  | raiseOther =>
    exact ⟨st.log ++ [("WARN", "Error checking capture status")],
      by simp [is_capture_enabled, captureEnabledB, hs, log_message, h]⟩
  | ok code body =>
    by_cases hc : code = 200
    · subst hc
      cases body with
      | malformed =>
        exact ⟨st.log ++ [("WARN", "Error checking capture status")],
          by simp [is_capture_enabled, captureEnabledB, hs, log_message, h]⟩
      | payload capturing =>
        exact ⟨st.log, by simp [is_capture_enabled, captureEnabledB, hs]⟩
    · refine ⟨st.log, ?_⟩
      have : captureEnabledB w = false := by
        unfold captureEnabledB
        rw [hs]
        cases body <;> simp_all [hc]
      rw [this]
      simp [is_capture_enabled, hs, hc]

/-- With a working logging sink, delivery returns normally and appends
exactly one attempted POST. -/
theorem send_ok (w : World) (exchange : Exchange) (st : St)
    (h : w.logRaises = false) :
    ∃ lg, send_exchange_to_server w exchange st =
      (Except.ok (), St.mk lg (st.sent ++ [exchange])) := by
  cases hd : w.deliver with
  | raiseReq =>
    exact ⟨st.log ++ [("ERROR", "Failed to send exchange to server")],
      by simp [send_exchange_to_server, hd, log_message, h]⟩
  | raiseOther =>
    exact ⟨st.log ++ [("ERROR", "Unexpected error sending exchange")],
      by simp [send_exchange_to_server, hd, log_message, h]⟩
  | ok code =>
    by_cases hc : code = 200
    · exact ⟨st.log, by simp [send_exchange_to_server, hd, hc]⟩
    · exact ⟨st.log ++ [("WARN", "Server returned " ++ toString code
          ++ " for exchange " ++ exchange.base.id ++ " to " ++ EXCHANGES_ENDPOINT)],
        by simp [send_exchange_to_server, hd, hc, log_message, h]⟩

/-- With a working logging sink, `log_message` appends one line. -/
theorem log_message_ok (w : World) (level message : String) (st : St)
    (h : w.logRaises = false) :
    log_message w level message st =
      (Except.ok (), St.mk (st.log ++ [(level, message)]) st.sent) := by
  simp [log_message, h]

/-- With a working logging sink, the `try:` body of the `response` hook
returns normally and attempts exactly one delivery when the combined
predicate holds, none otherwise. -/
theorem responseTryBody_spec (w : World) (f : Flow) (resp : Response) (st : St)
    (h : w.logRaises = false) :
    (responseTryBody w f resp st).1 = Except.ok () ∧
    ((responseTryBody w f resp st).2).sent = st.sent ++
      (if captureEnabledB w && should_capture_request w.aiBaseUrls f.request
        then [response_exchange w.now f.request resp f.sushify_start_time]
        else []) := by
  obtain ⟨lg, hgate⟩ := is_capture_enabled_eq w st h
  unfold responseTryBody should_capture_flow
  rw [hgate]
  cases hb : captureEnabledB w
  · constructor <;> simp [log_message, h]
  · cases hq : should_capture_request w.aiBaseUrls f.request
    · constructor <;> simp [hq, log_message, h]
    · obtain ⟨lg2, hsend⟩ :=
        send_ok w (response_exchange w.now f.request resp f.sushify_start_time)
          (St.mk lg st.sent) h
      constructor <;> simp [hq, hsend, log_message, h]

/-- With a working logging sink, the `try:` body of the `error` hook
returns normally and attempts exactly one delivery when the combined
predicate holds, none otherwise. -/
theorem errorTryBody_spec (w : World) (f : Flow) (err : String) (st : St)
    (h : w.logRaises = false) :
    (errorTryBody w f err st).1 = Except.ok () ∧
    ((errorTryBody w f err st).2).sent = st.sent ++
      (if captureEnabledB w && should_capture_request w.aiBaseUrls f.request
        then [error_exchange w.now f.request err f.sushify_start_time]
        else []) := by
  obtain ⟨lg, hgate⟩ := is_capture_enabled_eq w st h
  unfold errorTryBody should_capture_flow
  rw [hgate]
  cases hb : captureEnabledB w
  · constructor <;> simp
  · cases hq : should_capture_request w.aiBaseUrls f.request
    · constructor <;> simp [hq]
    · obtain ⟨lg2, hsend⟩ :=
        send_ok w (error_exchange w.now f.request err f.sushify_start_time)
          (St.mk lg st.sent) h
      constructor <;> simp [hq, hsend, log_message, h]

/-- With a working logging sink and a `try:` body that returns normally,
the guarded hook shape returns normally, leaves the flow alone, and ends in
the body's final state. -/
theorem hookGuard_spec (w : World) (lv msg : String)
    (tryBody : St → Except PyExn Unit × St) (hm : String) (f : Flow) (st : St)
    (h : w.logRaises = false)
    (hbody : ∀ s, (tryBody s).1 = Except.ok ()) :
    hookGuard w lv msg tryBody hm f st =
      (Except.ok (), f, (tryBody (St.mk (st.log ++ [(lv, msg)]) st.sent)).2) := by
  unfold hookGuard
  rw [log_message_ok w lv msg st h]
  have hb := hbody (St.mk (st.log ++ [(lv, msg)]) st.sent)
  rcases hbe : tryBody (St.mk (st.log ++ [(lv, msg)]) st.sent) with ⟨r, st2⟩
  rw [hbe] at hb
  simp only at hb
  subst hb
  simp [hbe]

/-- The guarded hook shape never modifies the flow, whatever happens. -/
theorem hookGuard_flow (w : World) (lv msg : String)
    (tryBody : St → Except PyExn Unit × St) (hm : String) (f : Flow) (st : St) :
    (hookGuard w lv msg tryBody hm f st).2.1 = f := by
  unfold hookGuard
  repeat' split
  all_goals rfl

/-- With a working logging sink, the `request` hook returns normally, its
only write to the flow is the start-time metadata key, and it attempts no
delivery. -/
theorem request_spec (w : World) (f : Flow) (st : St)
    (h : w.logRaises = false) :
    (request w f st).1 = Except.ok () ∧
    (request w f st).2.1 = { f with sushify_start_time := some w.now } ∧
    ((request w f st).2.2).sent = st.sent := by
  unfold request
  cases hc : f.request.content with
  | none => simp [log_message, h]
  | some c =>
    by_cases he : c.isEmpty = true
    · simp [log_message, h, he]
    · cases ht : f.request.text <;> simp [log_message, h, he, ht]

/-- With a working logging sink, the `response` hook returns normally,
leaves the flow alone, and attempts exactly one delivery of the
success-path record when the combined capture predicate holds, none
otherwise. -/
theorem response_spec (w : World) (f : Flow) (resp : Response) (st : St)
    (h : w.logRaises = false) :
    (response w f resp st).1 = Except.ok () ∧
    (response w f resp st).2.1 = f ∧
    ((response w f resp st).2.2).sent = st.sent ++
      (if captureEnabledB w && should_capture_request w.aiBaseUrls f.request
        then [response_exchange w.now f.request resp f.sushify_start_time]
        else []) := by
  unfold response
  rw [hookGuard_spec w _ _ _ _ f st h
    (fun s => (responseTryBody_spec w f resp s h).1)]
  refine ⟨rfl, rfl, ?_⟩
  rw [(responseTryBody_spec w f resp _ h).2]

/-- With a working logging sink, the `error` hook returns normally, leaves
the flow alone, and attempts exactly one delivery of the failure-path
record when the combined capture predicate holds, none otherwise. -/
theorem error_spec (w : World) (f : Flow) (err : String) (st : St)
    (h : w.logRaises = false) :
    (error w f err st).1 = Except.ok () ∧
    (error w f err st).2.1 = f ∧
    ((error w f err st).2.2).sent = st.sent ++
      (if captureEnabledB w && should_capture_request w.aiBaseUrls f.request
        then [error_exchange w.now f.request err f.sushify_start_time]
        else []) := by
  unfold error
  rw [hookGuard_spec w _ _ _ _ f st h
    (fun s => (errorTryBody_spec w f err s h).1)]
  refine ⟨rfl, rfl, ?_⟩
  rw [(errorTryBody_spec w f err _ h).2]

/-- Python truthiness of an optional body, in mathematical form. -/
theorem pyTruthy_iff (b : Option String) :
    pyTruthy b = true ↔ ∃ s, b = some s ∧ s ≠ "" := by
  cases b with
  | none => simp [pyTruthy]
  | some s =>
    simp only [pyTruthy, Bool.not_eq_true', Option.some.injEq]
    constructor
    · intro he
      refine ⟨s, rfl, fun hs => ?_⟩
      rw [hs] at he
      exact absurd he (by decide)
    · rintro ⟨t, rfl, hs⟩
      cases he : String.isEmpty s
      · rfl
      · exact absurd ((String.isEmpty_iff s).1 he) hs

/-- Domain matching, in mathematical form: some configured base URL is a
string prefix of the request URL. -/
theorem matches_ai_base_url_iff (aiBaseUrls : List String) (r : Request) :
    matches_ai_base_url aiBaseUrls r = true ↔
      ∃ base_url ∈ aiBaseUrls, ∃ rest, r.pretty_url = base_url ++ rest := by
  simp [matches_ai_base_url, List.any_eq_true, pyStartsWith_iff]

/-! ## Concrete sample values used by witnesses and counterexamples -/

/-- A conversational POST to a default provider. -/
def samplePostRequest : Request :=
  { pretty_url := "https://api.openai.com/v1/chat/completions",
    method := "POST", host := "api.openai.com",
    path := "/v1/chat/completions", scheme := "https",
    headers := [("content-type", "application/json")],
    content := some "model=gpt-4", text := some "model=gpt-4" }

/-- A request with no body at all. -/
def emptyBodyRequest : Request :=
  { pretty_url := "https://api.openai.com/v1/models",
    method := "GET", host := "api.openai.com",
    path := "/v1/models", scheme := "https",
    headers := [], content := none, text := none }

/-- A flow for `samplePostRequest` whose request hook ran at time 10. -/
def sampleFlow : Flow :=
  { request := samplePostRequest, sushify_start_time := some 10 }

/-- A plain 200 response. -/
def sampleResponse : Response :=
  { status_code := 200,
    headers := [("content-type", "application/json")],
    text := some "ok" }

/-- Everything working, capture switched on, clock at 11. -/
def okWorld : World :=
  { aiBaseUrls := DEFAULT_AI_BASE_URLS, now := 11, logRaises := false,
    status := StatusOutcome.ok 200 (StatusBody.payload (some true)),
    deliver := DeliverOutcome.ok 200 }

/-- Like `okWorld`, but the logging sink raises on every write. -/
def sinkBrokenWorld : World := { okWorld with logRaises := true }

/-- Like `okWorld`, but the status query raises a transport failure. -/
def downWorld : World := { okWorld with status := StatusOutcome.raiseReq }

/-- Like `okWorld`, but the ingestion endpoint replies 500. -/
def flakyWorld : World := { okWorld with deliver := DeliverOutcome.ok 500 }

/-- A delivered record used by the delivery witness. -/
def sampleExchange : Exchange :=
  response_exchange 11 samplePostRequest sampleResponse (some 10)

/-! ## Claim theorems -/

/-- C1: the classifier's capture-eligibility predicate returns true iff the
request's fully-qualified URL starts with (case-sensitive string prefix) at
least one configured provider base URL, AND the method equals POST, AND the
request body is present and non-empty; in particular, a request whose URL
starts with no configured base URL is never eligible, regardless of method
or body. -/
theorem capture_eligibility_correct (aiBaseUrls : List String) (r : Request) :
    (should_capture_request aiBaseUrls r = true ↔
      ((∃ base_url ∈ aiBaseUrls, ∃ rest, r.pretty_url = base_url ++ rest) ∧
        r.method = "POST" ∧ ∃ body, r.content = some body ∧ body ≠ "")) ∧
    ((∀ base_url ∈ aiBaseUrls, ∀ rest, r.pretty_url ≠ base_url ++ rest) →
      should_capture_request aiBaseUrls r = false) := by
  have hmain : should_capture_request aiBaseUrls r = true ↔
      ((∃ base_url ∈ aiBaseUrls, ∃ rest, r.pretty_url = base_url ++ rest) ∧
        r.method = "POST" ∧ ∃ body, r.content = some body ∧ body ≠ "") := by
    unfold should_capture_request
    simp [Bool.and_eq_true, matches_ai_base_url_iff, pyTruthy_iff,
      and_assoc]
  refine ⟨hmain, fun hall => ?_⟩
  cases hsc : should_capture_request aiBaseUrls r with
  | false => rfl
  | true =>
    obtain ⟨⟨b, hb, t, ht⟩, -, -⟩ := hmain.1 hsc
    exact absurd ht (hall b hb t)

/-- Witness for C1 at concrete inputs: an eligible provider POST with a
body, and ineligibility under an empty base-URL list. -/
theorem capture_eligibility_correct_witness :
    should_capture_request DEFAULT_AI_BASE_URLS samplePostRequest = true ∧
    should_capture_request [] samplePostRequest = false :=
  ⟨(capture_eligibility_correct DEFAULT_AI_BASE_URLS samplePostRequest).1.mpr
      ⟨⟨"https://api.openai.com", by decide,
          "/v1/chat/completions", by decide⟩,
        rfl, "model=gpt-4", rfl, by decide⟩,
    (capture_eligibility_correct [] samplePostRequest).2 (by simp)⟩

/-- C2 counterexample: the claim quantifies over all behaviours of the
logging sink, including raised exceptions, but each of the three hooks
performs an unguarded log write (the `request` hook entirely, the
`response`/`error` hooks before their `try:` block), so a raising sink
escapes to the engine from all three. -/
theorem hooks_raise_on_log_failure :
    (request sinkBrokenWorld sampleFlow (St.mk [] [])).1 =
      Except.error PyExn.ioError ∧
    (response sinkBrokenWorld sampleFlow sampleResponse (St.mk [] [])).1 =
      Except.error PyExn.ioError ∧
    (error sinkBrokenWorld sampleFlow "timeout" (St.mk [] [])).1 =
      Except.error PyExn.ioError :=
  ⟨rfl, rfl, rfl⟩

/-- C2 (amended): for every flow and every behaviour of the remote
collection service (timeouts, non-200 statuses, malformed bodies, raised
exceptions), provided the logging sink itself does not raise, each of the
three hooks returns normally and never raises an exception to the
engine. -/
theorem hooks_never_raise (w : World) (f : Flow) (resp : Response)
    (err : String) (st : St) (h : w.logRaises = false) :
    (request w f st).1 = Except.ok () ∧
    (response w f resp st).1 = Except.ok () ∧
    (error w f err st).1 = Except.ok () :=
  ⟨(request_spec w f st h).1, (response_spec w f resp st h).1,
    (error_spec w f err st h).1⟩

/-- Witness for C2 (amended) at a concrete world with a working sink. -/
theorem hooks_never_raise_witness :
    (request okWorld sampleFlow (St.mk [] [])).1 = Except.ok () ∧
    (response okWorld sampleFlow sampleResponse (St.mk [] [])).1 =
      Except.ok () ∧
    (error okWorld sampleFlow "timeout" (St.mk [] [])).1 = Except.ok () :=
  hooks_never_raise okWorld sampleFlow sampleResponse "timeout"
    (St.mk [] []) rfl

/-- C3: the capture-enabled check always returns a boolean and never
propagates an error: it returns the `capturing` field when the status query
returns HTTP 200 with the field present, and false whenever the field is
absent, the status is non-200, the body is malformed, or a transport
failure occurs. (The logging sink is assumed working: the check's generic
exception handler performs a log write.) -/
theorem capture_check_fail_closed (w : World) (st : St)
    (h : w.logRaises = false) :
    (∃ b st', is_capture_enabled w st = (Except.ok b, st')) ∧
    (∀ cap, w.status = StatusOutcome.ok 200 (StatusBody.payload (some cap)) →
      is_capture_enabled w st = (Except.ok cap, st)) ∧
    (w.status = StatusOutcome.ok 200 (StatusBody.payload none) →
      is_capture_enabled w st = (Except.ok false, st)) ∧
    (∀ code body, w.status = StatusOutcome.ok code body → code ≠ 200 →
      is_capture_enabled w st = (Except.ok false, st)) ∧
    (w.status = StatusOutcome.raiseReq →
      is_capture_enabled w st = (Except.ok false, st)) ∧
    (w.status = StatusOutcome.ok 200 StatusBody.malformed →
      (is_capture_enabled w st).1 = Except.ok false) ∧
    (w.status = StatusOutcome.raiseOther →
      (is_capture_enabled w st).1 = Except.ok false) := by
  obtain ⟨lg, hgate⟩ := is_capture_enabled_eq w st h
  refine ⟨⟨captureEnabledB w, St.mk lg st.sent, hgate⟩, ?_, ?_, ?_, ?_, ?_, ?_⟩
  · intro cap hs
    simp [is_capture_enabled, hs]
  · intro hs
    simp [is_capture_enabled, hs]
  · intro code body hs hne
    simp [is_capture_enabled, hs, hne]
  · intro hs
    simp [is_capture_enabled, hs]
  · intro hs
    simp [is_capture_enabled, hs, log_message, h]
  · intro hs
    simp [is_capture_enabled, hs, log_message, h]

/-- Witness for C3 at a concrete transport failure: fail-closed. -/
theorem capture_check_fail_closed_witness :
    is_capture_enabled downWorld (St.mk [] []) =
      (Except.ok false, St.mk [] []) :=
  (capture_check_fail_closed downWorld (St.mk [] []) rfl).2.2.2.2.1 rfl

/-- C4: the `response` and `error` hooks gate capture with the same
combined predicate (`should_capture_flow` = capture-enabled AND
classifier-eligible, in that order), and whenever the capture-enabled check
returns false — including all its fail-closed cases — no delivery request
is issued for that flow, even if the flow is classifier-eligible. -/
theorem gate_false_blocks_delivery (w : World) (f : Flow) (resp : Response)
    (err : String) (st : St) (h : w.logRaises = false)
    (hcap : (is_capture_enabled w st).1 = Except.ok false) :
    ((response w f resp st).2.2).sent = st.sent ∧
    ((error w f err st).2.2).sent = st.sent := by
  obtain ⟨lg, hgate⟩ := is_capture_enabled_eq w st h
  rw [hgate] at hcap
  have hb : captureEnabledB w = false := by simpa using hcap
  constructor
  · rw [(response_spec w f resp st h).2.2, hb]
    simp
  · rw [(error_spec w f err st h).2.2, hb]
    simp

/-- Witness for C4: with the status endpoint down, the hooks for an
otherwise-eligible flow deliver nothing. -/
theorem gate_false_blocks_delivery_witness :
    ((response downWorld sampleFlow sampleResponse (St.mk [] [])).2.2).sent =
      ([] : List Exchange) ∧
    ((error downWorld sampleFlow "timeout" (St.mk [] [])).2.2).sent =
      ([] : List Exchange) :=
  gate_false_blocks_delivery downWorld sampleFlow sampleResponse "timeout"
    (St.mk [] []) rfl rfl

/-- C5: each delivery attempts exactly one POST of the record to the
ingestion endpoint; a non-200 reply logs a WARN naming the record id and
the endpoint without retrying or raising; a transport failure or any other
exception logs an ERROR and nothing propagates to the caller. (The logging
sink is assumed working: the handlers log.) -/
theorem delivery_single_attempt_no_raise (w : World) (exchange : Exchange)
    (st : St) (h : w.logRaises = false) :
    ∃ st', send_exchange_to_server w exchange st = (Except.ok (), st') ∧
      st'.sent = st.sent ++ [exchange] ∧
      (∀ code, w.deliver = DeliverOutcome.ok code → code ≠ 200 →
        st'.log = st.log ++
          [("WARN", "Server returned " ++ toString code ++ " for exchange "
            ++ exchange.base.id ++ " to " ++ EXCHANGES_ENDPOINT)]) ∧
      (w.deliver = DeliverOutcome.ok 200 → st'.log = st.log) ∧
      (w.deliver = DeliverOutcome.raiseReq →
        st'.log = st.log ++ [("ERROR", "Failed to send exchange to server")]) ∧
      (w.deliver = DeliverOutcome.raiseOther →
        st'.log = st.log ++ [("ERROR", "Unexpected error sending exchange")]) := by
  cases hd : w.deliver with
  | raiseReq =>
    refine ⟨St.mk (st.log ++ [("ERROR", "Failed to send exchange to server")])
        (st.sent ++ [exchange]), ?_, rfl, ?_, ?_, ?_, ?_⟩
    · simp [send_exchange_to_server, hd, log_message, h]
    · intro code hcode
      cases hcode
    · intro hcode
      cases hcode
    · intro _
      rfl
    · intro hcode
      cases hcode
  | raiseOther =>
    refine ⟨St.mk (st.log ++ [("ERROR", "Unexpected error sending exchange")])
        (st.sent ++ [exchange]), ?_, rfl, ?_, ?_, ?_, ?_⟩
    · simp [send_exchange_to_server, hd, log_message, h]
    · intro code hcode
      cases hcode
    · intro hcode
      cases hcode
    · intro hcode
      cases hcode
    · intro _
      rfl
  | ok code =>
    by_cases hc : code = 200
    · subst hc
      refine ⟨St.mk st.log (st.sent ++ [exchange]), ?_, rfl, ?_, ?_, ?_, ?_⟩
      · simp [send_exchange_to_server, hd]
      · intro code' hcode hne
        cases hcode
        exact absurd rfl hne
      · intro _
        rfl
      · intro hcode
        cases hcode
      · intro hcode
        cases hcode
    · refine ⟨St.mk (st.log ++
          [("WARN", "Server returned " ++ toString code ++ " for exchange "
            ++ exchange.base.id ++ " to " ++ EXCHANGES_ENDPOINT)])
          (st.sent ++ [exchange]), ?_, rfl, ?_, ?_, ?_, ?_⟩
      · simp [send_exchange_to_server, hd, hc, log_message, h]
      · intro code' hcode hne
        cases hcode
        rfl
      · intro hcode
        cases hcode
        exact absurd rfl hc
      · intro hcode
        cases hcode
      · intro hcode
        cases hcode

/-- Witness for C5: one attempted POST against a 500-replying endpoint,
returning normally with the WARN line written. -/
theorem delivery_single_attempt_no_raise_witness :
    (send_exchange_to_server flakyWorld sampleExchange (St.mk [] [])).1 =
      Except.ok () ∧
    ((send_exchange_to_server flakyWorld sampleExchange (St.mk [] [])).2).sent =
      [sampleExchange] := by
  obtain ⟨st', heq, hsent, -, -, -, -⟩ :=
    delivery_single_attempt_no_raise flakyWorld sampleExchange
      (St.mk [] []) rfl
  rw [heq]
  exact ⟨rfl, by simpa using hsent⟩

/-- C6: for a flow whose outcome is a transport error and that passes the
combined capture predicate, the `error` hook delivers exactly the record
with `response_status = none`, empty response headers, `error_details`
equal to the raw error text, and `response_body` the classification by
case-insensitive substring search over the raw error text, first match
winning in the order timeout, connection refused, TLS/SSL or certificate,
DNS/name resolution, connection reset, generic network error. -/
theorem error_flow_record (w : World) (f : Flow) (err : String) (st : St)
    (h : w.logRaises = false)
    (hcap : (is_capture_enabled w st).1 = Except.ok true)
    (helig : should_capture_request w.aiBaseUrls f.request = true) :
    ((error w f err st).2.2).sent = st.sent ++
      [error_exchange w.now f.request err f.sushify_start_time] ∧
    (error_exchange w.now f.request err f.sushify_start_time).response_status
      = none ∧
    (error_exchange w.now f.request err f.sushify_start_time).response_headers
      = [] ∧
    (error_exchange w.now f.request err f.sushify_start_time).error_details
      = some err ∧
    (error_exchange w.now f.request err f.sushify_start_time).response_body
      = get_error_description err ∧
    (pyContains (pyToLower err) "timeout" = true →
      get_error_description err = "Request timed out") ∧
    (pyContains (pyToLower err) "timeout" = false →
      pyContains (pyToLower err) "connection refused" = true →
      get_error_description err = "Connection refused") ∧
    (pyContains (pyToLower err) "timeout" = false →
      pyContains (pyToLower err) "connection refused" = false →
      (pyContains (pyToLower err) "ssl" = true ∨
        pyContains (pyToLower err) "certificate" = true) →
      get_error_description err = "SSL/Certificate error") ∧
    (pyContains (pyToLower err) "timeout" = false →
      pyContains (pyToLower err) "connection refused" = false →
      pyContains (pyToLower err) "ssl" = false →
      pyContains (pyToLower err) "certificate" = false →
      (pyContains (pyToLower err) "dns" = true ∨
        pyContains (pyToLower err) "name resolution" = true) →
      get_error_description err = "DNS resolution failed") ∧
    (pyContains (pyToLower err) "timeout" = false →
      pyContains (pyToLower err) "connection refused" = false →
      pyContains (pyToLower err) "ssl" = false →
      pyContains (pyToLower err) "certificate" = false →
      pyContains (pyToLower err) "dns" = false →
      pyContains (pyToLower err) "name resolution" = false →
      pyContains (pyToLower err) "connection reset" = true →
      get_error_description err = "Connection reset") ∧
    (pyContains (pyToLower err) "timeout" = false →
      pyContains (pyToLower err) "connection refused" = false →
      pyContains (pyToLower err) "ssl" = false →
      pyContains (pyToLower err) "certificate" = false →
      pyContains (pyToLower err) "dns" = false →
      pyContains (pyToLower err) "name resolution" = false →
      pyContains (pyToLower err) "connection reset" = false →
      get_error_description err = "Network error: " ++ err) := by
  obtain ⟨lg, hgate⟩ := is_capture_enabled_eq w st h
  rw [hgate] at hcap
  have hb : captureEnabledB w = true := by simpa using hcap
  refine ⟨?_, rfl, rfl, rfl, rfl, ?_, ?_, ?_, ?_, ?_, ?_⟩
  · rw [(error_spec w f err st h).2.2, hb, helig]
    simp
  · intro h1
    simp [get_error_description, h1]
  · intro h1 h2
    simp [get_error_description, h1, h2]
  · intro h1 h2 h3
    rcases h3 with h3 | h3 <;> simp [get_error_description, h1, h2, h3]
  · intro h1 h2 h3 h4 h5
    rcases h5 with h5 | h5 <;>
      simp [get_error_description, h1, h2, h3, h4, h5]
  · intro h1 h2 h3 h4 h5 h6 h7
    simp [get_error_description, h1, h2, h3, h4, h5, h6, h7]
  · intro h1 h2 h3 h4 h5 h6 h7
    simp [get_error_description, h1, h2, h3, h4, h5, h6, h7]

/-- Witness for C6: a timed-out call to a provider is delivered as a
failure-path record classified "Request timed out". -/
theorem error_flow_record_witness :
    ((error okWorld sampleFlow "connection timeout" (St.mk [] [])).2.2).sent =
      [error_exchange 11 samplePostRequest "connection timeout" (some 10)] ∧
    get_error_description "connection timeout" = "Request timed out" := by
  have h := error_flow_record okWorld sampleFlow "connection timeout"
    (St.mk [] []) rfl rfl (by decide)
  exact ⟨by simpa using h.1, h.2.2.2.2.2.1 (by decide)⟩

/-- C7: exchange-record assembly is total (a total Lean function by
construction): all base fields are populated from the request for every
combination of present/absent optional inputs; an absent body yields the
empty string while a present body is passed through unmodified and
unbounded; a missing start time degrades `latency_ms` to zero. -/
theorem assembly_total (now : ℚ) (r : Request) (meta : Option ℚ) :
    ((create_exchange_base now r meta).url = r.pretty_url ∧
     (create_exchange_base now r meta).method = r.method ∧
     (create_exchange_base now r meta).host = r.host ∧
     (create_exchange_base now r meta).path = r.path ∧
     (create_exchange_base now r meta).scheme = r.scheme ∧
     (create_exchange_base now r meta).request_headers = r.headers ∧
     (create_exchange_base now r meta).timestamp = now ∧
     (create_exchange_base now r meta).captured_at = fmtTime now) ∧
    (r.text = none → (create_exchange_base now r meta).request_body = "") ∧
    (∀ s, r.text = some s → (create_exchange_base now r meta).request_body = s) ∧
    (meta = none → (create_exchange_base now r meta).latency_ms = 0) := by
  refine ⟨⟨rfl, rfl, rfl, rfl, rfl, rfl, rfl, rfl⟩, ?_, ?_, ?_⟩
  · intro ht
    simp [create_exchange_base, get_safe_body, ht]
  · intro s hs
    show get_safe_body r.text = s
    rw [hs]
    show (if s.isEmpty = true then "" else s) = s
    cases he : s.isEmpty
    · simp [he]
    · simp only [he, if_true]
      exact ((String.isEmpty_iff s).1 he).symm
  · intro hm
    simp [create_exchange_base, hm, pyInt]

/-- Witness for C7 at a body-less request with no recorded start time. -/
theorem assembly_total_witness :
    (create_exchange_base 5 emptyBodyRequest none).request_body = "" ∧
    (create_exchange_base 5 emptyBodyRequest none).latency_ms = 0 ∧
    (create_exchange_base 5 emptyBodyRequest none).url =
      "https://api.openai.com/v1/models" := by
  have h := assembly_total 5 emptyBodyRequest none
  exact ⟨h.2.1 rfl, h.2.2.2 rfl, h.1.1⟩

/-- C8: for one and the same request data, the success-path record and the
error-path record have identical base fields and differ only in the
response/error fields. -/
theorem records_share_base (now : ℚ) (r : Request) (resp : Response)
    (err : String) (meta : Option ℚ) :
    (response_exchange now r resp meta).base =
      (error_exchange now r err meta).base ∧
    (response_exchange now r resp meta).base.url =
      (error_exchange now r err meta).base.url ∧
    (response_exchange now r resp meta).base.method =
      (error_exchange now r err meta).base.method ∧
    (response_exchange now r resp meta).base.host =
      (error_exchange now r err meta).base.host ∧
    (response_exchange now r resp meta).base.path =
      (error_exchange now r err meta).base.path ∧
    (response_exchange now r resp meta).base.scheme =
      (error_exchange now r err meta).base.scheme ∧
    (response_exchange now r resp meta).base.request_headers =
      (error_exchange now r err meta).base.request_headers ∧
    (response_exchange now r resp meta).base.request_body =
      (error_exchange now r err meta).base.request_body :=
  ⟨rfl, rfl, rfl, rfl, rfl, rfl, rfl, rfl⟩

/-- Modelled from the spec: "if the override lacks a scheme, a secure
scheme is assumed" — a URL carries a scheme when it contains the `://`
separator. Used only to compare the spec's wording with the code's actual
test, which is the literal character prefix `http`. -/
def hasUrlScheme (s : String) : Bool :=
  pyContains s "://"

/-- C9 counterexample: an override such as `httpbin.org` lacks a scheme,
yet the code uses it as-is because it starts with the literal `http`, so
no https scheme is prefixed; and an override set to the empty string is
treated as unset (Python truthiness), not as a single-element match
list. -/
theorem override_scheme_cex :
    (hasUrlScheme "httpbin.org" = false ∧
      computeAiBaseUrls (some "httpbin.org") = ["httpbin.org"] ∧
      computeAiBaseUrls (some "httpbin.org") ≠ ["https://httpbin.org"]) ∧
    computeAiBaseUrls (some "") = DEFAULT_AI_BASE_URLS := by
  decide

/-- C9 (amended): when the custom provider override is set and non-empty,
the effective match list is exactly the single-element list holding the
override — with `https://` prefixed when the override does not start with
the literal string `http` (the code's approximation of "lacks a scheme") —
fully replacing the default provider list, so matching depends only on the
override. -/
theorem override_replaces (c : String) (h : c ≠ "") :
    computeAiBaseUrls (some c) =
      [if pyStartsWith c "http" then c else "https://" ++ c] ∧
    ∀ r : Request, matches_ai_base_url (computeAiBaseUrls (some c)) r =
      pyStartsWith r.pretty_url
        (if pyStartsWith c "http" then c else "https://" ++ c) := by
  have hne : c.isEmpty = false := by
    cases he : c.isEmpty
    · rfl
    · exact absurd ((String.isEmpty_iff c).1 he) h
  have hlist : computeAiBaseUrls (some c) =
      [if pyStartsWith c "http" then c else "https://" ++ c] := by
    by_cases hp : pyStartsWith c "http" = true <;>
      simp [computeAiBaseUrls, hne, hp]
  refine ⟨hlist, fun r => ?_⟩
  rw [hlist]
  simp [matches_ai_base_url]

/-- Witness for C9 (amended): a scheme-less override that does not start
with `http` gets the secure scheme prefixed and stands alone. -/
theorem override_replaces_witness :
    computeAiBaseUrls (some "example.com") = ["https://example.com"] :=
  (override_replaces "example.com" (by decide)).1

/-- C10: the `request` hook's only write to the flow is attaching the
single metadata key `sushify_start_time` (and even that only when the hook
completes), and the `response`/`error` hooks leave the flow untouched; no
hook modifies the request data, so the underlying HTTP exchange is never
altered. -/
theorem hooks_frame (w : World) (f : Flow) (resp : Response) (err : String)
    (st : St) :
    (request w f st).2.1.request = f.request ∧
    ((request w f st).2.1 = f ∨
      (request w f st).2.1 = { f with sushify_start_time := some w.now }) ∧
    (response w f resp st).2.1 = f ∧
    (error w f err st).2.1 = f := by
  have hreq : (request w f st).2.1 = f ∨
      (request w f st).2.1 = { f with sushify_start_time := some w.now } := by
    cases hl : w.logRaises
    · exact Or.inr (request_spec w f st hl).2.1
    · left
      unfold request
      simp [log_message, hl]
  refine ⟨?_, hreq, ?_, ?_⟩
  · rcases hreq with hcase | hcase <;> rw [hcase]
  · show (hookGuard w _ _ _ _ f st).2.1 = f
    exact hookGuard_flow w _ _ _ _ f st
  · show (hookGuard w _ _ _ _ f st).2.1 = f
    exact hookGuard_flow w _ _ _ _ f st

end Sushify
